import Mathlib

/-!
Verification of the kawaii-flywheel content-ideation core against its
natural-language specification.

Modelling conventions (shallow embedding of the Python source under
`backend/`):
* Python `float` values are modelled as exact rationals (`ℚ`).  All the
  arithmetic the claims touch is plain +, -, *, /, `min`/`max` on values
  far from any decision boundary, so exact-rational and IEEE-double
  evaluation agree on every input used below.
* Python `int` is `ℤ`; `int(x)` (truncation toward zero) is `pyInt`.
* `datetime.now().isoformat()` is an explicit `now : String` argument.
* Fallible operations (enum construction, `from_dict`) return `Option`.
-/

/-- Python `int(q)`: truncation toward zero. -/
def pyInt (q : ℚ) : ℤ :=
  if 0 ≤ q then ⌊q⌋ else -⌊-q⌋

/-- Python `round(q, 4)` modelled over ℚ.  Python uses round-half-even on
the underlying double; the two differ only at exact `.00005` ties, which no
quantity in this development attains. -/
def round4 (q : ℚ) : ℚ :=
  (round (q * 10000) : ℤ) / 10000

/-- Membership in the unit interval: `0 ≤ x ≤ 1`. -/
def inUnit (x : ℚ) : Prop := 0 ≤ x ∧ x ≤ 1

/-- The raw-data mapping attached by `compute_from_trend_data`
(`backend/core/trend_context.py`). -/
structure RawTrendData where
  current_volume : ℚ
  volume_7d_ago : ℚ
  volume_30d_ago : ℚ
  competition_count : ℤ
deriving DecidableEq

/-- Source `TrendContext` dataclass (`backend/core/trend_context.py`). -/
structure TrendContext where
  velocity : ℚ
  saturation : ℚ
  competition_density : ℚ
  hook_pressure : ℚ
  pacing_pressure : ℚ
  claim_strength_required : ℚ
  trend_confidence : ℚ
  data_sources : List String
  fetched_at : String
  raw_data : Option RawTrendData
deriving DecidableEq

namespace TrendContext

/-- Source `TrendContext.compute_from_trend_data`.  `data_sources or
['google_trends']` treats both `None` and the empty list as falsy. -/
def compute_from_trend_data (current_volume volume_7d_ago volume_30d_ago : ℚ)
    (competition_count : ℤ) (data_sources : Option (List String))
    (now : String) : TrendContext :=
  let velocity : ℚ :=
    if volume_7d_ago > 0 then
      min 1 (max 0 ((current_volume - volume_7d_ago) / volume_7d_ago))
    else 0.5
  let saturation : ℚ := min 1 (max 0 ((competition_count : ℚ) / 1000))
  let competition_density : ℚ := min 1 (max 0 ((competition_count : ℚ) / 500))
  let hook_pressure : ℚ := min 1 (max 0 (velocity * 0.6 + (1 - saturation) * 0.4))
  let pacing_pressure : ℚ := min 1 (max 0 (velocity * 0.7 + (1 - saturation) * 0.3))
  let claim_strength_required : ℚ :=
    min 1 (max 0 (competition_density * 0.7 + (1 - saturation) * 0.3))
  let trend_confidence : ℚ :=
    if volume_7d_ago > 0 ∧ volume_30d_ago > 0 then 0.9
    else if volume_7d_ago > 0 then 0.7
    else 0.5
  { velocity := velocity
    saturation := saturation
    competition_density := competition_density
    hook_pressure := hook_pressure
    pacing_pressure := pacing_pressure
    claim_strength_required := claim_strength_required
    trend_confidence := trend_confidence
    data_sources :=
      match data_sources with
      | none => ["google_trends"]
      | some [] => ["google_trends"]
      | some (s :: l) => s :: l
    fetched_at := now
    raw_data := some ⟨current_volume, volume_7d_ago, volume_30d_ago, competition_count⟩ }

/-- Source `TrendContext.default` (neutral fallback). -/
def default (now : String) : TrendContext :=
  { velocity := 0.5
    saturation := 0.5
    competition_density := 0.5
    hook_pressure := 0.5
    pacing_pressure := 0.5
    claim_strength_required := 0.5
    trend_confidence := 0.3
    data_sources := []
    fetched_at := now
    raw_data := none }

end TrendContext

lemma clamp_mem (x : ℚ) : inUnit (min 1 (max 0 x)) :=
  ⟨le_min (by norm_num) (le_max_left 0 x), min_le_left 1 _⟩

/-- C1: for every input (in particular every valid one), each
pressure/confidence field of `compute_from_trend_data` lies in [0,1], and
the same holds for the zero-argument `default` constructor. -/
theorem C1_trend_context_fields_in_unit_interval
    (cv v7 v30 : ℚ) (cc : ℤ) (ds : Option (List String)) (now now' : String) :
    (inUnit (TrendContext.compute_from_trend_data cv v7 v30 cc ds now).velocity ∧
     inUnit (TrendContext.compute_from_trend_data cv v7 v30 cc ds now).saturation ∧
     inUnit (TrendContext.compute_from_trend_data cv v7 v30 cc ds now).competition_density ∧
     inUnit (TrendContext.compute_from_trend_data cv v7 v30 cc ds now).hook_pressure ∧
     inUnit (TrendContext.compute_from_trend_data cv v7 v30 cc ds now).pacing_pressure ∧
     inUnit (TrendContext.compute_from_trend_data cv v7 v30 cc ds now).claim_strength_required ∧
     inUnit (TrendContext.compute_from_trend_data cv v7 v30 cc ds now).trend_confidence) ∧
    (inUnit (TrendContext.default now').velocity ∧
     inUnit (TrendContext.default now').saturation ∧
     inUnit (TrendContext.default now').competition_density ∧
     inUnit (TrendContext.default now').hook_pressure ∧
     inUnit (TrendContext.default now').pacing_pressure ∧
     inUnit (TrendContext.default now').claim_strength_required ∧
     inUnit (TrendContext.default now').trend_confidence) := by
  constructor
  · refine ⟨?_, ?_, ?_, ?_, ?_, ?_, ?_⟩ <;>
      simp only [TrendContext.compute_from_trend_data]
    · split_ifs with h
      · exact clamp_mem _
      · exact ⟨by norm_num, by norm_num⟩
    · exact clamp_mem _
    · exact clamp_mem _
    · exact clamp_mem _
    · exact clamp_mem _
    · exact clamp_mem _
    · split_ifs <;> exact ⟨by norm_num, by norm_num⟩
  · refine ⟨?_, ?_, ?_, ?_, ?_, ?_, ?_⟩ <;>
      simp only [TrendContext.default] <;> exact ⟨by norm_num, by norm_num⟩

/-- C7: velocity is `clamp((current - prev7)/prev7)` when `prev7 > 0` and
the fixed neutral 0.5 otherwise; on (80, 60, 40, 300) the computation
yields velocity 1/3 (≈ 0.333), saturation 0.3, competition_density 0.6 and
trend_confidence 0.9. -/
theorem C7_velocity_formula_and_example :
    (∀ cv v7 v30 : ℚ, ∀ cc : ℤ, ∀ ds : Option (List String), ∀ now : String,
      0 < v7 →
      (TrendContext.compute_from_trend_data cv v7 v30 cc ds now).velocity =
        min 1 (max 0 ((cv - v7) / v7))) ∧
    (∀ cv v7 v30 : ℚ, ∀ cc : ℤ, ∀ ds : Option (List String), ∀ now : String,
      v7 ≤ 0 →
      (TrendContext.compute_from_trend_data cv v7 v30 cc ds now).velocity = 0.5) ∧
    ((TrendContext.compute_from_trend_data 80 60 40 300 none "").velocity = 1/3 ∧
     (TrendContext.compute_from_trend_data 80 60 40 300 none "").saturation = 3/10 ∧
     (TrendContext.compute_from_trend_data 80 60 40 300 none "").competition_density = 3/5 ∧
     (TrendContext.compute_from_trend_data 80 60 40 300 none "").trend_confidence = 9/10) := by
  refine ⟨?_, ?_, ?_⟩
  · intro cv v7 v30 cc ds now h
    simp only [TrendContext.compute_from_trend_data, if_pos h]
  · intro cv v7 v30 cc ds now h
    simp only [TrendContext.compute_from_trend_data, if_neg (not_lt.mpr h)]
  · refine ⟨?_, ?_, ?_, ?_⟩ <;>
      norm_num [TrendContext.compute_from_trend_data, min_def, max_def]

/-- Witness for C7 at concrete inputs: the positive-history branch at
(80, 60) and the no-history branch at `prev7 = 0`. -/
theorem C7_witness :
    (TrendContext.compute_from_trend_data 80 60 40 300 none "").velocity =
      min 1 (max 0 ((80 - 60) / 60)) ∧
    (TrendContext.compute_from_trend_data 80 0 40 300 none "").velocity = 0.5 :=
  ⟨C7_velocity_formula_and_example.1 80 60 40 300 none "" (by norm_num),
   C7_velocity_formula_and_example.2.1 80 0 40 300 none "" le_rfl⟩

/-- Source `ContentMode` enum (`backend/core/idea_core.py`). -/
inductive ContentMode
  | short | long_form | tutorial | reaction | podcast_clip | commentary
deriving DecidableEq

/-- Source `.value` of the str-enum `ContentMode`. -/
def ContentMode.value : ContentMode → String
  | .short => "short"
  | .long_form => "long_form"
  | .tutorial => "tutorial"
  | .reaction => "reaction"
  | .podcast_clip => "podcast_clip"
  | .commentary => "commentary"

/-- Source `ContentMode(s)`: enum construction from a string; `none` models the
`ValueError` Python raises on an unknown value. -/
def ContentMode.ofString (s : String) : Option ContentMode :=
  if s = "short" then some .short
  else if s = "long_form" then some .long_form
  else if s = "tutorial" then some .tutorial
  else if s = "reaction" then some .reaction
  else if s = "podcast_clip" then some .podcast_clip
  else if s = "commentary" then some .commentary
  else none

/-- Source `TimeSensitivity` enum (`backend/core/idea_core.py`). -/
inductive TimeSensitivity
  | immediate | urgent | timely | evergreen
deriving DecidableEq

/-- Source `.value` of the str-enum `TimeSensitivity`. -/
def TimeSensitivity.value : TimeSensitivity → String
  | .immediate => "immediate"
  | .urgent => "urgent"
  | .timely => "timely"
  | .evergreen => "evergreen"

/-- Source `TimeSensitivity(s)` from a string. -/
def TimeSensitivity.ofString (s : String) : Option TimeSensitivity :=
  if s = "immediate" then some .immediate
  else if s = "urgent" then some .urgent
  else if s = "timely" then some .timely
  else if s = "evergreen" then some .evergreen
  else none

/-- Source `NoveltyAxis` enum (`backend/core/idea_core.py`). -/
inductive NoveltyAxis
  | new_angle | new_tool | new_data | new_format | contrarian
deriving DecidableEq

/-- Source `.value` of the str-enum `NoveltyAxis`. -/
def NoveltyAxis.value : NoveltyAxis → String
  | .new_angle => "new_angle"
  | .new_tool => "new_tool"
  | .new_data => "new_data"
  | .new_format => "new_format"
  | .contrarian => "contrarian"

/-- Source `NoveltyAxis(s)` from a string. -/
def NoveltyAxis.ofString (s : String) : Option NoveltyAxis :=
  if s = "new_angle" then some .new_angle
  else if s = "new_tool" then some .new_tool
  else if s = "new_data" then some .new_data
  else if s = "new_format" then some .new_format
  else if s = "contrarian" then some .contrarian
  else none

/-- Source `IdeaCore` dataclass (`backend/core/idea_core.py`). -/
structure IdeaCore where
  core_claim : String
  audience : String
  emotional_hooks : List String
  content_mode : ContentMode
  time_sensitivity : TimeSensitivity
  novelty_axis : NoveltyAxis
  keywords : List String
  pain_points : List String
  value_propositions : List String
  hook_pressure : Option ℚ
  pacing_pressure : Option ℚ
  claim_strength_required : Option ℚ
deriving DecidableEq

/-- Source `CognitiveLoadBudget` dataclass (`backend/core/cognitive_budget.py`);
the default constructor gives `base_decisions = 3`, `max_decisions = 7`. -/
structure CognitiveLoadBudget where
  base_decisions : ℤ
  max_decisions : ℤ
deriving DecidableEq

namespace CognitiveLoadBudget

/-- Source `CognitiveLoadBudget()` with its dataclass field defaults. -/
def init : CognitiveLoadBudget := ⟨3, 7⟩

/-- Source `CognitiveLoadBudget.calculate`. -/
def calculate (self : CognitiveLoadBudget) (trend_context : TrendContext)
    (idea_core : IdeaCore) (user_experience_level : String) : ℤ :=
  let decisions := self.base_decisions
  let confidence_multiplier : ℚ :=
    if trend_context.trend_confidence > 0.9 then 1.0
    else if trend_context.trend_confidence > 0.7 then 1.1
    else if trend_context.trend_confidence > 0.5 then 1.3
    else 1.5
  let urgency_multiplier : ℚ :=
    match idea_core.time_sensitivity with
    | .immediate => 0.5
    | .urgent => 0.7
    | .timely => 0.9
    | .evergreen => 1.0
  let experience_multiplier : ℚ :=
    if user_experience_level = "beginner" then 0.8
    else if user_experience_level = "expert" then 1.2
    else 1.0
  let final_decisions : ℤ :=
    pyInt ((decisions : ℚ) * confidence_multiplier * urgency_multiplier *
      experience_multiplier)
  max self.base_decisions (min self.max_decisions final_decisions)

end CognitiveLoadBudget

/-- Spec §4.3 confidence factor, written from the spec's words. -/
def confidenceFactorSpec (c : ℚ) : ℚ :=
  if c > 0.9 then 1.0 else if c > 0.7 then 1.1 else if c > 0.5 then 1.3 else 1.5

/-- Spec §4.3 urgency factor, written from the spec's words. -/
def urgencyFactorSpec : TimeSensitivity → ℚ
  | .immediate => 0.5
  | .urgent => 0.7
  | .timely => 0.9
  | .evergreen => 1.0

/-- Spec §4.3 experience factor, written from the spec's words. -/
def experienceFactorSpec (lvl : String) : ℚ :=
  if lvl = "beginner" then 0.8 else if lvl = "expert" then 1.2 else 1.0

lemma confidenceFactorSpec_mem (c : ℚ) :
    0 ≤ confidenceFactorSpec c ∧ confidenceFactorSpec c ≤ 3/2 := by
  unfold confidenceFactorSpec; split_ifs <;> norm_num

lemma urgencyFactorSpec_mem (t : TimeSensitivity) :
    0 ≤ urgencyFactorSpec t ∧ urgencyFactorSpec t ≤ 1 := by
  cases t <;> simp [urgencyFactorSpec] <;> norm_num

lemma experienceFactorSpec_mem (lvl : String) :
    0 ≤ experienceFactorSpec lvl ∧ experienceFactorSpec lvl ≤ 6/5 := by
  unfold experienceFactorSpec; split_ifs <;> norm_num

/-- C8: for every TrendContext, IdeaCore and experience-level string,
`CognitiveLoadBudget().calculate` equals the base 3 multiplied by the
confidence, urgency and experience factors, truncated to an integer and
clamped to [3,7]; in particular the result always lies in [3,7]. -/
theorem C8_cognitive_budget_in_range (tc : TrendContext) (ic : IdeaCore)
    (lvl : String) :
    CognitiveLoadBudget.init.calculate tc ic lvl =
      max 3 (min 7 (pyInt (3 * confidenceFactorSpec tc.trend_confidence *
        urgencyFactorSpec ic.time_sensitivity * experienceFactorSpec lvl))) ∧
    3 ≤ CognitiveLoadBudget.init.calculate tc ic lvl ∧
    CognitiveLoadBudget.init.calculate tc ic lvl ≤ 7 := by
  refine ⟨rfl, ?_, ?_⟩
  · exact le_max_left _ _
  · exact max_le (by decide) (min_le_left _ _)

/-- C10: the budget multipliers never exceed 1.5 · 1.0 · 1.2 = 1.8, so the
truncated product is at most `int(5.4) = 5` and `calculate` never returns
6 or 7. -/
theorem C10_cognitive_budget_at_most_five (tc : TrendContext) (ic : IdeaCore)
    (lvl : String) :
    CognitiveLoadBudget.init.calculate tc ic lvl ≤ 5 := by
  have hc := confidenceFactorSpec_mem tc.trend_confidence
  have hu := urgencyFactorSpec_mem ic.time_sensitivity
  have he := experienceFactorSpec_mem lvl
  have hq : (0:ℚ) ≤ 3 * confidenceFactorSpec tc.trend_confidence *
      urgencyFactorSpec ic.time_sensitivity * experienceFactorSpec lvl := by
    have := hc.1; have := hu.1; have := he.1; positivity
  have hle : 3 * confidenceFactorSpec tc.trend_confidence *
      urgencyFactorSpec ic.time_sensitivity * experienceFactorSpec lvl ≤ 27/5 := by
    have h1 : confidenceFactorSpec tc.trend_confidence *
        urgencyFactorSpec ic.time_sensitivity ≤ 3/2 := by
      have := mul_le_mul hc.2 hu.2 hu.1 (by norm_num : (0:ℚ) ≤ 3/2)
      linarith
    have h2 : confidenceFactorSpec tc.trend_confidence *
        urgencyFactorSpec ic.time_sensitivity * experienceFactorSpec lvl ≤ 9/5 := by
      have := mul_le_mul h1 he.2 he.1 (by norm_num : (0:ℚ) ≤ 3/2)
      linarith
    have h3 : 3 * confidenceFactorSpec tc.trend_confidence *
        urgencyFactorSpec ic.time_sensitivity * experienceFactorSpec lvl =
        3 * (confidenceFactorSpec tc.trend_confidence *
          urgencyFactorSpec ic.time_sensitivity * experienceFactorSpec lvl) := by
      ring
    rw [h3]
    linarith
  have hfloor : pyInt (3 * confidenceFactorSpec tc.trend_confidence *
      urgencyFactorSpec ic.time_sensitivity * experienceFactorSpec lvl) ≤ 5 := by
    simp only [pyInt, if_pos hq]
    rw [Int.floor_le_iff]
    push_cast
    linarith
  have := (C8_cognitive_budget_in_range tc ic lvl).1
  rw [this]
  exact max_le (by norm_num) ((min_le_right _ _).trans hfloor)

lemma pyInt_eq (q : ℚ) (n : ℤ) (h0 : 0 ≤ q) (h1 : (n:ℚ) ≤ q) (h2 : q < n + 1) :
    pyInt q = n := by
  simp only [pyInt, if_pos h0]
  exact Int.floor_eq_iff.mpr ⟨h1, h2⟩

lemma round_eval (q : ℚ) (n : ℤ) (h1 : (n:ℚ) ≤ q + 1/2) (h2 : q + 1/2 < n + 1) :
    round q = n := by
  rw [round_eq]
  exact Int.floor_eq_iff.mpr ⟨h1, h2⟩

/-- The only part of the `decision_object` dict that
`CoachEngine.predict_metrics` reads: its optional `claim_strength` entry. -/
structure CoachDecisionData where
  claim_strength : Option ℚ
deriving DecidableEq

/-- The `views` sub-dict of a prediction. -/
structure ViewsRange where
  min : ℤ
  max : ℤ
  expected : ℤ
deriving DecidableEq

/-- The dict returned by `CoachEngine.predict_metrics`
(`backend/coach/coach_engine.py`). -/
structure PredictedMetrics where
  ctr : ℚ
  retention : ℚ
  shares : ℤ
  views : ViewsRange
  confidence : ℚ
deriving DecidableEq

namespace CoachEngine

/-- The CTR multiplier block of `predict_metrics`: hook-pressure tiers, then
`*= 1.15` when the decision object carries a truthy `claim_strength`
exceeding 0.7 (Python's `decision_object.get('claim_strength')` truthiness
excludes both a missing key and the value 0.0). -/
def ctr_multiplier (trend_context : TrendContext)
    (decision_object : Option CoachDecisionData) : ℚ :=
  let base : ℚ :=
    if trend_context.hook_pressure > 0.7 then 1.3
    else if trend_context.hook_pressure > 0.5 then 1.1
    else 1.0
  match decision_object with
  | none => base
  | some d =>
    match d.claim_strength with
    | none => base
    | some claim_strength =>
      if claim_strength ≠ 0 ∧ claim_strength > 0.7 then base * 1.15 else base

/-- The retention multiplier block of `predict_metrics`. -/
def retention_multiplier (trend_context : TrendContext) : ℚ :=
  if trend_context.pacing_pressure > 0.7 then 1.2 else 1.0

/-- Source `predicted_ctr = min(0.15, base_ctr * ctr_multiplier)` with
`base_ctr = 0.03`. -/
def predicted_ctr (trend_context : TrendContext)
    (decision_object : Option CoachDecisionData) : ℚ :=
  min 0.15 (0.03 * ctr_multiplier trend_context decision_object)

/-- Source `predicted_retention = min(0.80, base_retention * retention_multiplier)`
with `base_retention = 0.40`. -/
def predicted_retention (trend_context : TrendContext) : ℚ :=
  min 0.80 (0.40 * retention_multiplier trend_context)

/-- Source `CoachEngine.predict_metrics`.  The `idea_core` argument is accepted and
unused, exactly as in the source. -/
def predict_metrics (idea_core : IdeaCore) (trend_context : TrendContext)
    (decision_object : Option CoachDecisionData) : PredictedMetrics :=
  let velocity_multiplier : ℚ := 1.0 + trend_context.velocity * 0.5
  let base_views : ℚ := 1000 * velocity_multiplier
  { ctr := round4 (predicted_ctr trend_context decision_object)
    retention := round4 (predicted_retention trend_context)
    shares := pyInt (predicted_retention trend_context * 100 * velocity_multiplier)
    views :=
      { min := pyInt (base_views * 0.5)
        max := pyInt (base_views * 2.0)
        expected := pyInt base_views }
    confidence := trend_context.trend_confidence }

end CoachEngine

/-- A predicted/actual metrics dict as read by `analyze_episode`: `some`
models a non-empty (truthy) dict, whose `ctr` key may itself be absent. -/
structure MetricsBag where
  ctr : Option ℚ
deriving DecidableEq

/-- The slice of a stored episode that `analyze_episode` inspects. -/
structure CoachEpisode where
  predicted_metrics : Option MetricsBag
  actual_metrics : Option MetricsBag
deriving DecidableEq

/-- A typed insight; the human-readable message strings (f-string float
formatting) are elided, the `type` tag alone drives selection. -/
structure Insight where
  itype : String
deriving DecidableEq

/-- The single primary insight returned by `_get_primary_insight`. -/
structure PrimaryInsight where
  itype : String
  action : String
  priority : String
deriving DecidableEq

namespace CoachEngine

/-- The insight-list construction inside `analyze_episode`: a strength or
weakness insight from the predicted CTR, then a learning insight when both
predicted and actual CTR exist and differ by more than 0.01. -/
def build_insights (episode : CoachEpisode) : List Insight :=
  let l1 : List Insight :=
    match episode.predicted_metrics with
    | none => []
    | some predicted =>
      if predicted.ctr.getD 0 > 0.05 then [⟨"strength"⟩]
      else if predicted.ctr.getD 0 < 0.03 then [⟨"weakness"⟩]
      else []
  let l2 : List Insight :=
    match episode.actual_metrics with
    | none => []
    | some actual =>
      match episode.predicted_metrics with
      | none => []
      | some predicted =>
        match predicted.ctr, actual.ctr with
        | some pc, some ac => if |ac - pc| > 0.01 then [⟨"learning"⟩] else []
        | _, _ => []
  l1 ++ l2

/-- Source `CoachEngine._get_primary_insight` (the leading underscore of the
source name is dropped). -/
def get_primary_insight (episode : CoachEpisode) (insights : List Insight) :
    PrimaryInsight :=
  match insights.find? (fun i => i.itype == "weakness") with
  | some _ => ⟨"weakness", "Fix this first for maximum impact", "high"⟩
  | none =>
    match insights.find? (fun i => i.itype == "learning") with
    | some _ => ⟨"learning", "System is learning from this pattern", "medium"⟩
    | none =>
      match insights.find? (fun i => i.itype == "strength") with
      | some _ => ⟨"strength", "Continue using this approach", "low"⟩
      | none =>
        let predicted_ctr_val : ℚ :=
          match episode.predicted_metrics with
          | some p => p.ctr.getD 0
          | none => 0
        if predicted_ctr_val > 0 then
          ⟨"info", "Monitor actual performance to validate prediction", "medium"⟩
        else
          ⟨"info", "Add actual metrics when available", "low"⟩

/-- Result of `analyze_episode` on a found episode. -/
structure EpisodeAnalysis where
  insights : List Insight
  primary_insight : PrimaryInsight
deriving DecidableEq

/-- Source `CoachEngine.analyze_episode` on a stored episode (the not-found error
branch is outside this model). -/
def analyze_episode (episode : CoachEpisode) : EpisodeAnalysis :=
  let insights := build_insights episode
  ⟨insights, get_primary_insight episode insights⟩

end CoachEngine

/-- Modelled from the spec: the primary-insight selection rule as §4.6
words it — strict priority weakness > learning > strength >
(predicted-CTR-present info message) > (generic waiting message). -/
def primaryInsightSpec (episode : CoachEpisode) : PrimaryInsight :=
  let insights := CoachEngine.build_insights episode
  if insights.any (fun i => i.itype == "weakness") then
    ⟨"weakness", "Fix this first for maximum impact", "high"⟩
  else if insights.any (fun i => i.itype == "learning") then
    ⟨"learning", "System is learning from this pattern", "medium"⟩
  else if insights.any (fun i => i.itype == "strength") then
    ⟨"strength", "Continue using this approach", "low"⟩
  else
    match episode.predicted_metrics with
    | some p =>
      match p.ctr with
      | some _ => ⟨"info", "Monitor actual performance to validate prediction", "medium"⟩
      | none => ⟨"info", "Add actual metrics when available", "low"⟩
    | none => ⟨"info", "Add actual metrics when available", "low"⟩

lemma analyze_primary (ep : CoachEpisode) :
    (CoachEngine.analyze_episode ep).primary_insight =
      CoachEngine.get_primary_insight ep (CoachEngine.build_insights ep) := rfl

lemma primary_of_insights (ep : CoachEpisode)
    (hl : CoachEngine.build_insights ep = []) (hc : ℚ)
    (hpc : ep.predicted_metrics = some ⟨some hc⟩) (hpos : hc > 0) :
    CoachEngine.get_primary_insight ep (CoachEngine.build_insights ep) =
      ⟨"info", "Monitor actual performance to validate prediction", "medium"⟩ := by
  rw [hl]
  simp only [CoachEngine.get_primary_insight, List.find?_nil, hpc, Option.getD_some]
  rw [if_pos hpos]

lemma primary_insight_agrees (ep : CoachEpisode)
    (hep : ∀ bag, ep.predicted_metrics = some bag → bag.ctr ≠ none) :
    (CoachEngine.analyze_episode ep).primary_insight = primaryInsightSpec ep := by
  obtain ⟨p, a⟩ := ep
  rcases p with _ | ⟨pc⟩
  · rcases a with _ | ⟨ac⟩ <;> rfl
  · rcases pc with _ | c
    · exact absurd rfl (hep ⟨none⟩ rfl)
    · have hinfo :
        ∀ a' : Option MetricsBag,
          CoachEngine.build_insights ⟨some ⟨some c⟩, a'⟩ = [] → ¬ c < 0.03 →
          (CoachEngine.analyze_episode ⟨some ⟨some c⟩, a'⟩).primary_insight =
            primaryInsightSpec ⟨some ⟨some c⟩, a'⟩ := by
        intro a' hl hc2
        have hpos : c > (0:ℚ) := by
          rw [not_lt] at hc2
          have : (0:ℚ) < 0.03 := by norm_num
          linarith
        rw [analyze_primary]
        rw [primary_of_insights _ hl c rfl hpos]
        simp only [primaryInsightSpec, hl]
        rfl
      rcases a with _ | ⟨oac⟩
      · by_cases hc1 : c > (0.05:ℚ)
        · have hl : CoachEngine.build_insights ⟨some ⟨some c⟩, none⟩ =
              [⟨"strength"⟩] := by
            simp [CoachEngine.build_insights, Option.getD_some, hc1]
          rw [analyze_primary]
          simp only [primaryInsightSpec, hl]
          rfl
        · by_cases hc2 : c < (0.03:ℚ)
          · have hl : CoachEngine.build_insights ⟨some ⟨some c⟩, none⟩ =
                [⟨"weakness"⟩] := by
              simp [CoachEngine.build_insights, Option.getD_some, hc1, hc2]
            rw [analyze_primary]
            simp only [primaryInsightSpec, hl]
            rfl
          · have hl : CoachEngine.build_insights ⟨some ⟨some c⟩, none⟩ = [] := by
              simp [CoachEngine.build_insights, Option.getD_some, hc1, hc2]
            exact hinfo none hl hc2
      · rcases oac with ⟨_ | ac⟩
        · by_cases hc1 : c > (0.05:ℚ)
          · have hl : CoachEngine.build_insights ⟨some ⟨some c⟩, some ⟨none⟩⟩ =
                [⟨"strength"⟩] := by
              simp [CoachEngine.build_insights, Option.getD_some, hc1]
            rw [analyze_primary]
            simp only [primaryInsightSpec, hl]
            rfl
          · by_cases hc2 : c < (0.03:ℚ)
            · have hl : CoachEngine.build_insights ⟨some ⟨some c⟩, some ⟨none⟩⟩ =
                  [⟨"weakness"⟩] := by
                simp [CoachEngine.build_insights, Option.getD_some, hc1, hc2]
              rw [analyze_primary]
              simp only [primaryInsightSpec, hl]
              rfl
            · have hl : CoachEngine.build_insights ⟨some ⟨some c⟩, some ⟨none⟩⟩ =
                  [] := by
                simp [CoachEngine.build_insights, Option.getD_some, hc1, hc2]
              exact hinfo (some ⟨none⟩) hl hc2
        · by_cases hc3 : |ac - c| > (0.01:ℚ)
          · by_cases hc1 : c > (0.05:ℚ)
            · have hl : CoachEngine.build_insights ⟨some ⟨some c⟩, some ⟨some ac⟩⟩ =
                  [⟨"strength"⟩, ⟨"learning"⟩] := by
                simp [CoachEngine.build_insights, Option.getD_some, hc1, hc3]
              rw [analyze_primary]
              simp only [primaryInsightSpec, hl]
              rfl
            · by_cases hc2 : c < (0.03:ℚ)
              · have hl : CoachEngine.build_insights ⟨some ⟨some c⟩, some ⟨some ac⟩⟩ =
                    [⟨"weakness"⟩, ⟨"learning"⟩] := by
                  simp [CoachEngine.build_insights, Option.getD_some, hc1, hc2, hc3]
                rw [analyze_primary]
                simp only [primaryInsightSpec, hl]
                rfl
              · have hl : CoachEngine.build_insights ⟨some ⟨some c⟩, some ⟨some ac⟩⟩ =
                    [⟨"learning"⟩] := by
                  simp [CoachEngine.build_insights, Option.getD_some, hc1, hc2, hc3]
                rw [analyze_primary]
                simp only [primaryInsightSpec, hl]
                rfl
          · by_cases hc1 : c > (0.05:ℚ)
            · have hl : CoachEngine.build_insights ⟨some ⟨some c⟩, some ⟨some ac⟩⟩ =
                  [⟨"strength"⟩] := by
                simp [CoachEngine.build_insights, Option.getD_some, hc1, hc3]
              rw [analyze_primary]
              simp only [primaryInsightSpec, hl]
              rfl
            · by_cases hc2 : c < (0.03:ℚ)
              · have hl : CoachEngine.build_insights ⟨some ⟨some c⟩, some ⟨some ac⟩⟩ =
                    [⟨"weakness"⟩] := by
                  simp [CoachEngine.build_insights, Option.getD_some, hc1, hc2, hc3]
                rw [analyze_primary]
                simp only [primaryInsightSpec, hl]
                rfl
              · have hl : CoachEngine.build_insights ⟨some ⟨some c⟩, some ⟨some ac⟩⟩ =
                    [] := by
                  simp [CoachEngine.build_insights, Option.getD_some, hc1, hc2, hc3]
                exact hinfo (some ⟨some ac⟩) hl hc2

/-- C4: on every stored episode whose (non-empty) predicted-metrics dict
carries a `ctr` key, `analyze_episode` returns the single primary insight
chosen by the spec's strict priority (weakness > learning > strength >
info-with-CTR > waiting); on an episode with predicted CTR 0.02 and no
actual metrics the primary insight has type weakness and priority high. -/
theorem C4_primary_insight_strict_priority (ep : CoachEpisode)
    (hep : ∀ bag, ep.predicted_metrics = some bag → bag.ctr ≠ none) :
    (CoachEngine.analyze_episode ep).primary_insight = primaryInsightSpec ep ∧
    (CoachEngine.analyze_episode ⟨some ⟨some (1/50)⟩, none⟩).primary_insight.itype =
      "weakness" ∧
    (CoachEngine.analyze_episode ⟨some ⟨some (1/50)⟩, none⟩).primary_insight.priority =
      "high" := by
  have hl : CoachEngine.build_insights ⟨some ⟨some (1/50)⟩, none⟩ =
      [⟨"weakness"⟩] := by
    norm_num [CoachEngine.build_insights, Option.getD_some]
  have hmain : (CoachEngine.analyze_episode
      ⟨some ⟨some (1/50)⟩, none⟩).primary_insight =
      ⟨"weakness", "Fix this first for maximum impact", "high"⟩ := by
    rw [analyze_primary, hl]
    rfl
  exact ⟨primary_insight_agrees ep hep, by rw [hmain], by rw [hmain]⟩

/-- Witness for C4: the priority characterization applied to the concrete
episode with predicted CTR 0.02 and no actual metrics. -/
theorem C4_witness :
    (CoachEngine.analyze_episode ⟨some ⟨some (1/50)⟩, none⟩).primary_insight =
      primaryInsightSpec ⟨some ⟨some (1/50)⟩, none⟩ :=
  (C4_primary_insight_strict_priority ⟨some ⟨some (1/50)⟩, none⟩
    (fun bag h => by cases h; simp)).1

lemma ctr_multiplier_bounds (tc : TrendContext)
    (dec : Option CoachDecisionData) :
    1 ≤ CoachEngine.ctr_multiplier tc dec ∧
    CoachEngine.ctr_multiplier tc dec ≤ 299/200 := by
  rcases dec with _ | ⟨cs⟩
  · unfold CoachEngine.ctr_multiplier
    dsimp only
    split_ifs <;> constructor <;> norm_num
  · rcases cs with _ | c
    · unfold CoachEngine.ctr_multiplier
      dsimp only
      split_ifs <;> constructor <;> norm_num
    · unfold CoachEngine.ctr_multiplier
      dsimp only
      split_ifs <;> constructor <;> norm_num

/-- C9: the predicted CTR never exceeds 0.03·1.3·1.15 = 0.04485 (so the
0.15 ceiling never binds), the stored rounded CTR stays strictly below the
0.05 strength threshold, and consequently no strength insight — and no
strength primary insight — can arise from metrics produced by
`predict_metrics`. -/
theorem C9_strength_insight_unreachable (ic : IdeaCore) (tc : TrendContext)
    (dec : Option CoachDecisionData) (am : Option MetricsBag) :
    CoachEngine.predicted_ctr tc dec = 0.03 * CoachEngine.ctr_multiplier tc dec ∧
    CoachEngine.predicted_ctr tc dec ≤ 4485/100000 ∧
    (CoachEngine.predict_metrics ic tc dec).ctr < 1/20 ∧
    (∀ i ∈ CoachEngine.build_insights
        ⟨some ⟨some ((CoachEngine.predict_metrics ic tc dec).ctr)⟩, am⟩,
      i.itype ≠ "strength") ∧
    (CoachEngine.analyze_episode
        ⟨some ⟨some ((CoachEngine.predict_metrics ic tc dec).ctr)⟩, am⟩).primary_insight.itype ≠
      "strength" := by
  obtain ⟨hm1, hm2⟩ := ctr_multiplier_bounds tc dec
  have hub : 0.03 * CoachEngine.ctr_multiplier tc dec ≤ 4485/100000 := by
    rw [show ((4485:ℚ)/100000) = (3/100) * (299/200) by norm_num]
    have h3 : (0:ℚ) ≤ 3/100 := by norm_num
    calc (0.03:ℚ) * CoachEngine.ctr_multiplier tc dec
        = 3/100 * CoachEngine.ctr_multiplier tc dec := by norm_num
      _ ≤ 3/100 * (299/200) := by
          exact mul_le_mul_of_nonneg_left hm2 h3
  have heq : CoachEngine.predicted_ctr tc dec =
      0.03 * CoachEngine.ctr_multiplier tc dec := by
    unfold CoachEngine.predicted_ctr
    exact min_eq_right (hub.trans (by norm_num))
  have hctr : (CoachEngine.predict_metrics ic tc dec).ctr < 1/20 := by
    show round4 (CoachEngine.predicted_ctr tc dec) < 1/20
    have harg : CoachEngine.predicted_ctr tc dec * 10000 + 1/2 < 450 := by
      rw [heq]; linarith
    have hfl : round (CoachEngine.predicted_ctr tc dec * 10000) ≤ 449 := by
      rw [round_eq]
      rw [Int.floor_le_iff]
      push_cast
      linarith
    rw [round4]
    have : ((round (CoachEngine.predicted_ctr tc dec * 10000) : ℤ) : ℚ) ≤ 449 := by
      exact_mod_cast hfl
    linarith
  refine ⟨heq, heq ▸ hub, hctr, ?_, ?_⟩
  · intro i hi
    simp only [CoachEngine.build_insights, Option.getD, List.mem_append] at hi
    have h5 : ¬ ((CoachEngine.predict_metrics ic tc dec).ctr > (0.05:ℚ)) := by
      rw [not_lt]
      calc (CoachEngine.predict_metrics ic tc dec).ctr
          ≤ 1/20 := le_of_lt hctr
        _ ≤ (0.05:ℚ) := by norm_num
    rw [if_neg h5] at hi
    rcases hi with hi | hi
    · split_ifs at hi <;> simp_all
    · rcases am with _ | ⟨actr⟩
      · simp at hi
      · rcases actr with _ | ac
        · simp at hi
        · dsimp only at hi
          split_ifs at hi <;> simp_all
  · intro hstr
    have hns : ∀ i ∈ CoachEngine.build_insights
        ⟨some ⟨some ((CoachEngine.predict_metrics ic tc dec).ctr)⟩, am⟩,
        i.itype ≠ "strength" := by
      intro i hi
      simp only [CoachEngine.build_insights, Option.getD, List.mem_append] at hi
      have h5 : ¬ ((CoachEngine.predict_metrics ic tc dec).ctr > (0.05:ℚ)) := by
        rw [not_lt]
        calc (CoachEngine.predict_metrics ic tc dec).ctr
            ≤ 1/20 := le_of_lt hctr
          _ ≤ (0.05:ℚ) := by norm_num
      rw [if_neg h5] at hi
      rcases hi with hi | hi
      · split_ifs at hi <;> simp_all
      · rcases am with _ | ⟨actr⟩
        · simp at hi
        · rcases actr with _ | ac
          · simp at hi
          · dsimp only at hi
            split_ifs at hi <;> simp_all
    revert hstr
    simp only [CoachEngine.analyze_episode, CoachEngine.get_primary_insight]
    rcases hfw : (CoachEngine.build_insights
        ⟨some ⟨some ((CoachEngine.predict_metrics ic tc dec).ctr)⟩, am⟩).find?
        (fun i => i.itype == "weakness") with _ | w
    · rcases hfl : (CoachEngine.build_insights
          ⟨some ⟨some ((CoachEngine.predict_metrics ic tc dec).ctr)⟩, am⟩).find?
          (fun i => i.itype == "learning") with _ | l
      · rcases hfs : (CoachEngine.build_insights
            ⟨some ⟨some ((CoachEngine.predict_metrics ic tc dec).ctr)⟩, am⟩).find?
            (fun i => i.itype == "strength") with _ | s
        · simp only [hfw, hfl, hfs]
          split_ifs <;> simp
        · exfalso
          have hmem := List.mem_of_find?_eq_some hfs
          have hps := List.find?_some hfs
          simp at hps
          exact hns s hmem hps
      · simp only [hfw, hfl]
        simp
    · simp only [hfw]
      simp

/-- Concrete inputs for settling C3: velocity 0.04, neutral pressures. -/
def tcShares : TrendContext :=
  ⟨1/25, 1/2, 1/2, 1/2, 1/2, 1/2, 9/10, ["google_trends"], "", none⟩

/-- A throwaway concrete IdeaCore (predict_metrics ignores it). -/
def icShares : IdeaCore :=
  ⟨"claim", "aud", [], .long_form, .evergreen, .new_angle, [], [], [],
    none, none, none⟩

/-- C3 counterexample: at velocity 0.04 the retention·100·velocity product
is 40.8; the code stores `int(40.8) = 40` while the claimed rounding gives
41, so `shares` is the truncation, not the nearest integer. -/
theorem C3_counterexample :
    (CoachEngine.predict_metrics icShares tcShares none).shares ≠
      round (CoachEngine.predicted_retention tcShares * 100 *
        (1 + 0.5 * tcShares.velocity)) := by
  have hret : CoachEngine.predicted_retention tcShares = 2/5 := by
    unfold CoachEngine.predicted_retention CoachEngine.retention_multiplier
    rw [if_neg (by norm_num [tcShares])]
    rw [min_eq_right (by norm_num)]
    norm_num
  have hshares : (CoachEngine.predict_metrics icShares tcShares none).shares = 40 := by
    show pyInt (CoachEngine.predicted_retention tcShares * 100 *
      (1.0 + tcShares.velocity * 0.5)) = 40
    rw [hret]
    refine pyInt_eq _ 40 (by norm_num [tcShares]) (by norm_num [tcShares]) ?_
    norm_num [tcShares]
  have hround : round (CoachEngine.predicted_retention tcShares * 100 *
      (1 + 0.5 * tcShares.velocity)) = 41 := by
    rw [hret]
    refine round_eval _ 41 ?_ ?_ <;> norm_num [tcShares]
  rw [hshares, hround]
  decide

/-- C3 amended: for every IdeaCore, TrendContext and optional decision
object, `shares` equals the TRUNCATION `int(predicted_retention · 100 ·
velocity_multiplier)` with `velocity_multiplier = 1 + 0.5·velocity` and
`predicted_retention` the capped retention prediction. -/
theorem C3_shares_is_truncation (ic : IdeaCore) (tc : TrendContext)
    (dec : Option CoachDecisionData) :
    (CoachEngine.predict_metrics ic tc dec).shares =
      pyInt (CoachEngine.predicted_retention tc * 100 * (1 + 0.5 * tc.velocity)) := by
  show pyInt (CoachEngine.predicted_retention tc * 100 * (1.0 + tc.velocity * 0.5)) = _
  congr 1
  ring


/-- The dict produced by `IdeaCore.to_dict`: identical fields with the three
enums replaced by their `.value` strings. -/
structure IdeaCoreDict where
  core_claim : String
  audience : String
  emotional_hooks : List String
  content_mode : String
  time_sensitivity : String
  novelty_axis : String
  keywords : List String
  pain_points : List String
  value_propositions : List String
  hook_pressure : Option ℚ
  pacing_pressure : Option ℚ
  claim_strength_required : Option ℚ
deriving DecidableEq

/-- Source `IdeaCore.to_dict` (`backend/core/idea_core.py`). -/
def IdeaCore.to_dict (x : IdeaCore) : IdeaCoreDict :=
  { core_claim := x.core_claim
    audience := x.audience
    emotional_hooks := x.emotional_hooks
    content_mode := x.content_mode.value
    time_sensitivity := x.time_sensitivity.value
    novelty_axis := x.novelty_axis.value
    keywords := x.keywords
    pain_points := x.pain_points
    value_propositions := x.value_propositions
    hook_pressure := x.hook_pressure
    pacing_pressure := x.pacing_pressure
    claim_strength_required := x.claim_strength_required }

/-- Source `IdeaCore.from_dict`: enum construction from the stored strings;
`none` models the `ValueError` escaping on an invalid variant. -/
def IdeaCore.from_dict (d : IdeaCoreDict) : Option IdeaCore :=
  match ContentMode.ofString d.content_mode,
      TimeSensitivity.ofString d.time_sensitivity,
      NoveltyAxis.ofString d.novelty_axis with
  | some cm, some ts, some na =>
    some
      { core_claim := d.core_claim
        audience := d.audience
        emotional_hooks := d.emotional_hooks
        content_mode := cm
        time_sensitivity := ts
        novelty_axis := na
        keywords := d.keywords
        pain_points := d.pain_points
        value_propositions := d.value_propositions
        hook_pressure := d.hook_pressure
        pacing_pressure := d.pacing_pressure
        claim_strength_required := d.claim_strength_required }
  | _, _, _ => none

/-- The dict produced by `TrendContext.to_dict` (`asdict` of a dataclass of
plain values: the same fields verbatim). -/
structure TrendContextDict where
  velocity : ℚ
  saturation : ℚ
  competition_density : ℚ
  hook_pressure : ℚ
  pacing_pressure : ℚ
  claim_strength_required : ℚ
  trend_confidence : ℚ
  data_sources : List String
  fetched_at : String
  raw_data : Option RawTrendData
deriving DecidableEq

/-- Source `TrendContext.to_dict`. -/
def TrendContext.to_dict (x : TrendContext) : TrendContextDict :=
  ⟨x.velocity, x.saturation, x.competition_density, x.hook_pressure,
   x.pacing_pressure, x.claim_strength_required, x.trend_confidence,
   x.data_sources, x.fetched_at, x.raw_data⟩

/-- Source `TrendContext.from_dict` (`cls(**data)`). -/
def TrendContext.from_dict (d : TrendContextDict) : TrendContext :=
  ⟨d.velocity, d.saturation, d.competition_density, d.hook_pressure,
   d.pacing_pressure, d.claim_strength_required, d.trend_confidence,
   d.data_sources, d.fetched_at, d.raw_data⟩

/-- Source `OverrideReason` enum (`backend/core/decision_object.py`). -/
inductive OverrideReason
  | preference | confidence | context | testing | intuition
deriving DecidableEq

/-- Source `.value` of the str-enum `OverrideReason`. -/
def OverrideReason.value : OverrideReason → String
  | .preference => "preference"
  | .confidence => "confidence"
  | .context => "context"
  | .testing => "testing"
  | .intuition => "intuition"

/-- Source `OverrideReason(s)` from a string. -/
def OverrideReason.ofString (s : String) : Option OverrideReason :=
  if s = "preference" then some .preference
  else if s = "confidence" then some .confidence
  else if s = "context" then some .context
  else if s = "testing" then some .testing
  else if s = "intuition" then some .intuition
  else none

/-- Source `DecisionOverride` dataclass.  The `Any`-typed recommendation/choice
payloads are modelled as strings; nothing in the serializer inspects them. -/
structure DecisionOverride where
  decision_id : String
  system_recommendation : String
  user_choice : String
  reason : OverrideReason
  timestamp : String
  notes : Option String
deriving DecidableEq

/-- A `reason` slot of an override dict, which Python typing lets hold
either an `OverrideReason` member or a raw string. -/
inductive ReasonVal
  | enum (r : OverrideReason)
  | str (s : String)
deriving DecidableEq

/-- A plain dict holding an override's fields — the shape `from_dict` stores
back into `overrides` (it never reconstructs `DecisionOverride` objects). -/
structure OverrideRecord where
  decision_id : String
  system_recommendation : String
  user_choice : String
  reason : ReasonVal
  timestamp : String
  notes : Option String
deriving DecidableEq

/-- A member of `DecisionObject.overrides`: dynamically either a
`DecisionOverride` dataclass instance (as `add_override` appends) or a
plain dict (as `from_dict` leaves in place). -/
inductive OverrideEntry
  | obj (o : DecisionOverride)
  | dict (r : OverrideRecord)
deriving DecidableEq

/-- Source `DecisionObject` dataclass (`backend/core/decision_object.py`). -/
structure DecisionObject where
  idea_core_id : String
  trend_context_id : String
  project_id : Option String
  thumbnail_style : Option String
  thumbnail_claim : Option String
  narration_hook : Option String
  pacing_strategy : Option String
  claim_strength : Option ℚ
  cognitive_budget : Option ℤ
  decisions_made : ℤ
  overrides : List OverrideEntry
  created_at : String
  updated_at : String
deriving DecidableEq

/-- A serialized override: after `to_dict`'s loop the `reason` entry is
always a plain string. -/
structure SerOverride where
  decision_id : String
  system_recommendation : String
  user_choice : String
  reason : String
  timestamp : String
  notes : Option String
deriving DecidableEq

/-- The dict produced by `DecisionObject.to_dict`. -/
structure DecisionObjectDict where
  idea_core_id : String
  trend_context_id : String
  project_id : Option String
  thumbnail_style : Option String
  thumbnail_claim : Option String
  narration_hook : Option String
  pacing_strategy : Option String
  claim_strength : Option ℚ
  cognitive_budget : Option ℤ
  decisions_made : ℤ
  overrides : List SerOverride
  created_at : String
  updated_at : String
deriving DecidableEq

/-- Source `asdict` plus the reason-normalization loop of `DecisionObject.to_dict`,
applied to one override: an enum-valued reason becomes its `.value` string,
a raw string passes through unchanged. -/
def OverrideEntry.serialize : OverrideEntry → SerOverride
  | .obj o =>
    ⟨o.decision_id, o.system_recommendation, o.user_choice, o.reason.value,
     o.timestamp, o.notes⟩
  | .dict r =>
    ⟨r.decision_id, r.system_recommendation, r.user_choice,
     (match r.reason with
      | .enum e => e.value
      | .str s => s),
     r.timestamp, r.notes⟩

/-- Source `DecisionObject.to_dict`. -/
def DecisionObject.to_dict (x : DecisionObject) : DecisionObjectDict :=
  { idea_core_id := x.idea_core_id
    trend_context_id := x.trend_context_id
    project_id := x.project_id
    thumbnail_style := x.thumbnail_style
    thumbnail_claim := x.thumbnail_claim
    narration_hook := x.narration_hook
    pacing_strategy := x.pacing_strategy
    claim_strength := x.claim_strength
    cognitive_budget := x.cognitive_budget
    decisions_made := x.decisions_made
    overrides := x.overrides.map OverrideEntry.serialize
    created_at := x.created_at
    updated_at := x.updated_at }

/-- Source `from_dict`'s per-override conversion: `OverrideReason(reason_string)`
stored back into the dict; `none` models the escaping `ValueError`. -/
def parseOverride (s : SerOverride) : Option OverrideRecord :=
  (OverrideReason.ofString s.reason).map fun e =>
    ⟨s.decision_id, s.system_recommendation, s.user_choice, .enum e,
     s.timestamp, s.notes⟩

/-- The loop in `DecisionObject.from_dict`: convert each override's reason,
failing on the first invalid one. -/
def parseOverrides : List SerOverride → Option (List OverrideRecord)
  | [] => some []
  | s :: t =>
    match parseOverride s, parseOverrides t with
    | some r, some rt => some (r :: rt)
    | _, _ => none

/-- Source `DecisionObject.from_dict`: note the overrides come back as plain dicts
(`OverrideEntry.dict`), not `DecisionOverride` instances. -/
def DecisionObject.from_dict (d : DecisionObjectDict) : Option DecisionObject :=
  (parseOverrides d.overrides).map fun ov =>
    { idea_core_id := d.idea_core_id
      trend_context_id := d.trend_context_id
      project_id := d.project_id
      thumbnail_style := d.thumbnail_style
      thumbnail_claim := d.thumbnail_claim
      narration_hook := d.narration_hook
      pacing_strategy := d.pacing_strategy
      claim_strength := d.claim_strength
      cognitive_budget := d.cognitive_budget
      decisions_made := d.decisions_made
      overrides := ov.map OverrideEntry.dict
      created_at := d.created_at
      updated_at := d.updated_at }

/-- The dict shape an override takes after one `to_dict`/`from_dict`
round trip. -/
def OverrideEntry.toRecord : OverrideEntry → OverrideRecord
  | .obj o =>
    ⟨o.decision_id, o.system_recommendation, o.user_choice, .enum o.reason,
     o.timestamp, o.notes⟩
  | .dict r => r

/-- An override entry whose reason is enum-typed (not a raw string). -/
def OverrideEntry.isEnumTyped : OverrideEntry → Bool
  | .obj _ => true
  | .dict r =>
    match r.reason with
    | .enum _ => true
    | .str _ => false

lemma contentMode_ofString_value (m : ContentMode) :
    ContentMode.ofString m.value = some m := by cases m <;> rfl

lemma timeSensitivity_ofString_value (t : TimeSensitivity) :
    TimeSensitivity.ofString t.value = some t := by cases t <;> rfl

lemma noveltyAxis_ofString_value (n : NoveltyAxis) :
    NoveltyAxis.ofString n.value = some n := by cases n <;> rfl

lemma overrideReason_ofString_value (r : OverrideReason) :
    OverrideReason.ofString r.value = some r := by cases r <;> rfl

lemma parseOverrides_serialize (l : List OverrideEntry)
    (h : ∀ e ∈ l, e.isEnumTyped = true) :
    parseOverrides (l.map OverrideEntry.serialize) =
      some (l.map OverrideEntry.toRecord) := by
  induction l with
  | nil => rfl
  | cons e t ih =>
    have he := h e (List.mem_cons_self e t)
    have ht := ih fun x hx => h x (List.mem_cons_of_mem e hx)
    simp only [List.map_cons, parseOverrides, ht]
    rcases e with o | r
    · simp [OverrideEntry.serialize, parseOverride, overrideReason_ofString_value,
        OverrideEntry.toRecord]
    · rcases r with ⟨d1, sr, uc, rv, ts, nt⟩
      rcases rv with er | s
      · simp [OverrideEntry.serialize, parseOverride, overrideReason_ofString_value,
          OverrideEntry.toRecord]
      · simp [OverrideEntry.isEnumTyped] at he

/-- The concrete DecisionObject used to refute the literal round-trip law:
one override, enum-typed reason. -/
def dObjEx : DecisionObject :=
  ⟨"idea1", "trend1", none, none, none, none, none, none, none, 0,
   [.obj ⟨"thumbnail_style", "bold_claim", "curiosity_gap",
     .preference, "t0", none⟩], "c0", "u0"⟩

/-- C2 counterexample: deserializing the serialization of a DecisionObject
with one (enum-typed) override does NOT reproduce it — the override comes
back as a plain dict holding the same field values, not as a
`DecisionOverride` instance, so the objects are not equal. -/
theorem C2_counterexample :
    DecisionObject.from_dict (DecisionObject.to_dict dObjEx) ≠ some dObjEx := by
  decide

/-- C2 amended: the round trip reproduces every IdeaCore and TrendContext
exactly; for a DecisionObject whose override reasons are enum-typed the
round trip reproduces every scalar field and every override's field values,
but each override returns as a plain dict (reason as the enum) instead of a
`DecisionOverride` instance — exact equality therefore holds precisely in
the no-override case. -/
theorem C2_roundtrip_amended :
    (∀ ic : IdeaCore, IdeaCore.from_dict (IdeaCore.to_dict ic) = some ic) ∧
    (∀ tc : TrendContext, TrendContext.from_dict (TrendContext.to_dict tc) = tc) ∧
    (∀ x : DecisionObject, (∀ e ∈ x.overrides, e.isEnumTyped = true) →
      DecisionObject.from_dict (DecisionObject.to_dict x) =
        some { x with overrides :=
          x.overrides.map (fun e => OverrideEntry.dict e.toRecord) }) ∧
    (∀ x : DecisionObject, x.overrides = [] →
      DecisionObject.from_dict (DecisionObject.to_dict x) = some x) := by
  refine ⟨?_, ?_, ?_, ?_⟩
  · intro ic
    simp [IdeaCore.to_dict, IdeaCore.from_dict, contentMode_ofString_value,
      timeSensitivity_ofString_value, noveltyAxis_ofString_value]
  · intro tc
    cases tc
    rfl
  · intro x h
    simp only [DecisionObject.from_dict, DecisionObject.to_dict,
      parseOverrides_serialize x.overrides h, Option.map_some]
    simp [List.map_map]
  · intro x h
    obtain ⟨i1, t1, p1, s1, c1, n1, p2, cs, cb, dm, ov, ca, ua⟩ := x
    simp only at h
    subst h
    rfl

/-- Witness for C2's amended theorem: the dict-shaped round trip at the
one-override object `dObjEx`, and the exact round trip at the override-free
object. -/
theorem C2_witness :
    DecisionObject.from_dict (DecisionObject.to_dict dObjEx) =
      some { dObjEx with overrides :=
        dObjEx.overrides.map (fun e => OverrideEntry.dict e.toRecord) } ∧
    DecisionObject.from_dict (DecisionObject.to_dict
      ⟨"i", "t", none, none, none, none, none, none, none, 0, [], "c", "u"⟩) =
      some ⟨"i", "t", none, none, none, none, none, none, none, 0, [], "c", "u"⟩ :=
  ⟨C2_roundtrip_amended.2.2.1 dObjEx (by decide),
   C2_roundtrip_amended.2.2.2 _ rfl⟩

/-- One stored episode record (`backend/coach/episode_tracker.py`).  The
keys spread in from `episode_data` besides `episode_num` (idea, trend,
metrics, decisions snapshots) are opaque to `add_episode` and modelled as
one `payload` value. -/
structure Episode where
  episode_id : String
  episode_num : ℤ
  created_at : String
  updated_at : String
  payload : String
deriving DecidableEq

/-- The `episode_data` argument of `add_episode`: an optional
`episode_num` key plus the opaque remaining keys. -/
structure EpisodeData where
  episode_num : Option ℤ
  payload : String
deriving DecidableEq

/-- Python's `next((i for i, ep in enumerate(l) if p ep), None)`. -/
def findIndex : List Episode → (Episode → Bool) → Option Nat
  | [], _ => none
  | e :: t, p => if p e then some 0 else (findIndex t p).map (· + 1)

namespace EpisodeTracker

/-- Source `EpisodeTracker.add_episode` acting on the in-memory episode list (the
JSON persistence layer is I/O and out of the model); `now` stands for
`datetime.now().isoformat()`.  Returns the new list and the episode id. -/
def add_episode (episodes : List Episode) (episode_data : EpisodeData)
    (now : String) : List Episode × String :=
  let episode_num := episode_data.episode_num.getD ((episodes.length : ℤ) + 1)
  let episode_id := "episode_" ++ toString episode_num
  let episode : Episode :=
    ⟨episode_id, episode_num, now, now, episode_data.payload⟩
  match findIndex episodes (fun ep => ep.episode_num == episode_num) with
  | some i =>
    (episodes.set i
      { episode with
        created_at := (episodes.getD i episode).created_at }, episode_id)
  | none => (episodes ++ [episode], episode_id)

end EpisodeTracker

lemma findIndex_none {s : List Episode} {p : Episode → Bool}
    (h : findIndex s p = none) : ∀ x ∈ s, p x = false := by
  induction s with
  | nil => intro x hx; cases hx
  | cons e t ih =>
    intro x hx
    by_cases hp : p e
    · simp [findIndex, hp] at h
    · simp only [findIndex, if_neg hp] at h
      cases hfi : findIndex t p with
      | some j => rw [hfi] at h; simp at h
      | none =>
        rcases List.mem_cons.mp hx with hx | hx
        · subst hx; simpa using hp
        · exact ih hfi x hx

lemma findIndex_some_decomp {s : List Episode} {p : Episode → Bool} {i : Nat}
    (h : findIndex s p = some i) :
    ∃ l1 x l2, s = l1 ++ x :: l2 ∧ (∀ y ∈ l1, p y = false) ∧ p x = true ∧
      (∀ b : Episode, s.set i b = l1 ++ b :: l2) ∧
      (∀ dflt : Episode, s.getD i dflt = x) := by
  induction s generalizing i with
  | nil => cases h
  | cons e t ih =>
    by_cases hp : p e
    · simp only [findIndex, if_pos hp, Option.some.injEq] at h
      subst h
      refine ⟨[], e, t, rfl, ?_, hp, fun b => rfl, fun dflt => rfl⟩
      intro y hy
      cases hy
    · simp only [findIndex, if_neg hp] at h
      cases hfi : findIndex t p with
      | none => rw [hfi] at h; simp at h
      | some j =>
        rw [hfi] at h
        have hji : j + 1 = i := by simpa using h
        obtain ⟨l1, x, l2, hs, hl1, hx, hset, hgetD⟩ := ih hfi
        refine ⟨e :: l1, x, l2, by rw [hs]; rfl, ?_, hx, ?_, ?_⟩
        · intro y hy
          rcases List.mem_cons.mp hy with hy | hy
          · subst hy; simpa using hp
          · exact hl1 y hy
        · intro b
          rw [← hji]
          show e :: t.set j b = e :: (l1 ++ b :: l2)
          rw [hset b]
        · intro dflt
          rw [← hji]
          show t.getD j dflt = x
          exact hgetD dflt

lemma add_episode_upsert (s : List Episode) (d : EpisodeData) (n : ℤ)
    (t : String) (hd : d.episode_num = some n)
    (hs : s.countP (fun ep => ep.episode_num == n) ≤ 1) :
    (EpisodeTracker.add_episode s d t).1.countP
        (fun ep => ep.episode_num == n) = 1 ∧
    (∀ ep ∈ (EpisodeTracker.add_episode s d t).1, ep.episode_num = n →
      ep.payload = d.payload ∧ ep.updated_at = t ∧
      ep.episode_id = "episode_" ++ toString n ∧
      ((s.countP (fun ep => ep.episode_num == n) = 0 ∧ ep.created_at = t) ∨
        (∃ ep0 ∈ s, ep0.episode_num = n ∧ ep.created_at = ep0.created_at))) ∧
    (EpisodeTracker.add_episode s d t).1.filter
        (fun ep => !(ep.episode_num == n)) =
      s.filter (fun ep => !(ep.episode_num == n)) := by
  have hnum : d.episode_num.getD ((s.length : ℤ) + 1) = n := by rw [hd]; rfl
  simp only [EpisodeTracker.add_episode, hnum]
  cases hf : findIndex s (fun ep => ep.episode_num == n) with
  | none =>
    dsimp only
    have hall := findIndex_none hf
    have hc0 : s.countP (fun ep => ep.episode_num == n) = 0 :=
      List.countP_eq_zero.mpr fun a ha => by simp [hall a ha]
    refine ⟨?_, ?_, ?_⟩
    · rw [List.countP_append, hc0]
      simp [List.countP_cons]
    · intro ep hep hepn
      rcases List.mem_append.mp hep with hin | hin
      · exact absurd (by simp [hepn] : (fun ep => ep.episode_num == n) ep = true)
          (by simp [hall ep hin])
      · have : ep = ⟨"episode_" ++ toString n, n, t, t, d.payload⟩ := by
          simpa using hin
        subst this
        exact ⟨rfl, rfl, rfl, Or.inl ⟨hc0, rfl⟩⟩
    · rw [List.filter_append]
      simp
  | some i =>
    dsimp only
    obtain ⟨l1, x, l2, hsdec, hl1, hx, hset, hgetD⟩ := findIndex_some_decomp hf
    rw [hset, hgetD]
    have hxnum : x.episode_num = n := by simpa using hx
    have hcl1 : l1.countP (fun ep => ep.episode_num == n) = 0 ∧
        l2.countP (fun ep => ep.episode_num == n) = 0 := by
      rw [hsdec, List.countP_append, List.countP_cons, hx] at hs
      simp only [if_true] at hs
      constructor <;> omega
    refine ⟨?_, ?_, ?_⟩
    · rw [List.countP_append, List.countP_cons, hcl1.1, hcl1.2]
      simp
    · intro ep hep hepn
      rcases List.mem_append.mp hep with hin | hin
      · exact absurd (by simp [hepn] : (fun ep => ep.episode_num == n) ep = true)
          (by simp [hl1 ep hin])
      · rcases List.mem_cons.mp hin with hin | hin
        · subst hin
          refine ⟨rfl, rfl, rfl, Or.inr ⟨x, ?_, hxnum, rfl⟩⟩
          rw [hsdec]
          exact List.mem_append.mpr (Or.inr (List.mem_cons_self x l2))
        · exfalso
          have : (fun ep => ep.episode_num == n) ep = false :=
            List.countP_eq_zero.mp hcl1.2 ep hin |> eq_false_of_ne_true ∘ fun h => h
          simp [hepn] at this
    · rw [hsdec, List.filter_append, List.filter_append, List.filter_cons,
        List.filter_cons]
      simp [hxnum]

/-- C5: calling `add_episode` twice with the same `episode_num` `n` on a
store holding at most one episode with that number leaves exactly one
episode numbered `n`; its payload and `updated_at` come from the second
call, its `created_at` equals the one recorded by the first call (in
particular `t1` when the store had no such episode), and episodes with
other numbers are untouched. -/
theorem C5_add_episode_overwrites_in_place (s0 : List Episode)
    (d1 d2 : EpisodeData) (n : ℤ) (t1 t2 : String)
    (h1 : d1.episode_num = some n) (h2 : d2.episode_num = some n)
    (hs : s0.countP (fun ep => ep.episode_num == n) ≤ 1) :
    ((EpisodeTracker.add_episode
        (EpisodeTracker.add_episode s0 d1 t1).1 d2 t2).1).countP
      (fun ep => ep.episode_num == n) = 1 ∧
    (∀ ep ∈ (EpisodeTracker.add_episode
        (EpisodeTracker.add_episode s0 d1 t1).1 d2 t2).1, ep.episode_num = n →
      ep.payload = d2.payload ∧ ep.updated_at = t2 ∧
      ∃ ep1 ∈ (EpisodeTracker.add_episode s0 d1 t1).1,
        ep1.episode_num = n ∧ ep.created_at = ep1.created_at) ∧
    (s0.countP (fun ep => ep.episode_num == n) = 0 →
      ∀ ep ∈ (EpisodeTracker.add_episode
          (EpisodeTracker.add_episode s0 d1 t1).1 d2 t2).1, ep.episode_num = n →
        ep.created_at = t1) ∧
    ((EpisodeTracker.add_episode
        (EpisodeTracker.add_episode s0 d1 t1).1 d2 t2).1).filter
      (fun ep => !(ep.episode_num == n)) =
      s0.filter (fun ep => !(ep.episode_num == n)) := by
  obtain ⟨c1, m1, f1⟩ := add_episode_upsert s0 d1 n t1 h1 hs
  obtain ⟨c2, m2, f2⟩ :=
    add_episode_upsert (EpisodeTracker.add_episode s0 d1 t1).1 d2 n t2 h2
      (by rw [c1])
  refine ⟨c2, ?_, ?_, f2.trans f1⟩
  · intro ep hep hepn
    obtain ⟨hp, hu, _, hcr⟩ := m2 ep hep hepn
    refine ⟨hp, hu, ?_⟩
    rcases hcr with ⟨hc0, _⟩ | ⟨ep1, hmem, hnum1, hcr⟩
    · rw [c1] at hc0; cases hc0
    · exact ⟨ep1, hmem, hnum1, hcr⟩
  · intro hc0 ep hep hepn
    obtain ⟨_, _, _, hcr⟩ := m2 ep hep hepn
    rcases hcr with ⟨hc0', _⟩ | ⟨ep1, hmem1, hnum1, hcr⟩
    · rw [c1] at hc0'; cases hc0'
    · obtain ⟨_, _, _, hcr1⟩ := m1 ep1 hmem1 hnum1
      rcases hcr1 with ⟨_, hcreq⟩ | ⟨ep0, hmem0, hnum0, _⟩
      · rw [hcr, hcreq]
      · exfalso
        have := List.countP_eq_zero.mp hc0 ep0 hmem0
        simp [hnum0] at this

/-- Witness for C5: two adds with `episode_num = 1` on the empty store. -/
theorem C5_witness :
    ((EpisodeTracker.add_episode
        (EpisodeTracker.add_episode [] ⟨some 1, "a"⟩ "t1").1
        ⟨some 1, "b"⟩ "t2").1).countP (fun ep => ep.episode_num == 1) = 1 ∧
    (∀ ep ∈ (EpisodeTracker.add_episode
        (EpisodeTracker.add_episode [] ⟨some 1, "a"⟩ "t1").1
        ⟨some 1, "b"⟩ "t2").1, ep.episode_num = 1 →
      ep.payload = "b" ∧ ep.updated_at = "t2" ∧
      ∃ ep1 ∈ (EpisodeTracker.add_episode [] ⟨some 1, "a"⟩ "t1").1,
        ep1.episode_num = 1 ∧ ep.created_at = ep1.created_at) ∧
    (([] : List Episode).countP (fun ep => ep.episode_num == 1) = 0 →
      ∀ ep ∈ (EpisodeTracker.add_episode
          (EpisodeTracker.add_episode [] ⟨some 1, "a"⟩ "t1").1
          ⟨some 1, "b"⟩ "t2").1, ep.episode_num = 1 →
        ep.created_at = "t1") ∧
    ((EpisodeTracker.add_episode
        (EpisodeTracker.add_episode [] ⟨some 1, "a"⟩ "t1").1
        ⟨some 1, "b"⟩ "t2").1).filter (fun ep => !(ep.episode_num == 1)) =
      ([] : List Episode).filter (fun ep => !(ep.episode_num == 1)) :=
  C5_add_episode_overwrites_in_place [] ⟨some 1, "a"⟩ ⟨some 1, "b"⟩ 1 "t1" "t2"
    rfl rfl (by decide)

/-- Python's substring test `pat in s` (for non-empty `pat`): `splitOn`
yields more than one piece exactly when the pattern occurs. -/
def strContains (s pat : String) : Bool := (s.splitOn pat).length > 1

/-- Python's `str.split()` with no argument: split on whitespace runs,
dropping empty pieces. -/
def pySplit (s : String) : List String :=
  (s.split Char.isWhitespace).filter (fun w => w ≠ "")

/-- Source `IdeaCore._basic_extraction` (the deterministic no-LLM path; leading
underscore dropped).  The `trend_context` parameter is accepted and unused,
exactly as in the source. -/
def IdeaCore.basic_extraction (raw_input : String)
    (trend_context : Option TrendContext) : IdeaCore :=
  let lowered := raw_input.toLower
  let keywords := (pySplit lowered).filter (fun word => word.length > 4)
  let content_mode : ContentMode :=
    if ["short", "shorts", "quick", "60 seconds"].any
        (fun kw => strContains lowered kw) then .short
    else if ["tutorial", "how to", "guide", "step"].any
        (fun kw => strContains lowered kw) then .tutorial
    else if ["react", "reaction", "watching"].any
        (fun kw => strContains lowered kw) then .reaction
    else .long_form
  let time_sensitivity : TimeSensitivity :=
    if ["now", "urgent", "breaking", "today"].any
        (fun kw => strContains lowered kw) then .immediate
    else if ["soon", "this week", "trending"].any
        (fun kw => strContains lowered kw) then .timely
    else .evergreen
  let novelty_axis : NoveltyAxis :=
    if ["new tool", "new app", "new software"].any
        (fun kw => strContains lowered kw) then .new_tool
    else if ["nobody talks", "unpopular", "contrarian"].any
        (fun kw => strContains lowered kw) then .contrarian
    else .new_angle
  { core_claim := raw_input.take 200
    audience := "Productivity-obsessed millennials/Gen Z"
    emotional_hooks := ["curiosity", "fear of missing out"]
    content_mode := content_mode
    time_sensitivity := time_sensitivity
    novelty_axis := novelty_axis
    keywords := keywords.take 10
    pain_points := ["Time waste", "Inefficiency"]
    value_propositions := ["Save time", "Increase productivity"]
    hook_pressure := none
    pacing_pressure := none
    claim_strength_required := none }

/-- The generator's structured JSON object; each of the nine expected keys
may be absent, in which case `_llm_extraction`'s `data.get` defaults
apply. -/
structure LlmData where
  core_claim : Option String
  audience : Option String
  emotional_hooks : Option (List String)
  content_mode : Option String
  time_sensitivity : Option String
  novelty_axis : Option String
  keywords : Option (List String)
  pain_points : Option (List String)
  value_propositions : Option (List String)
deriving DecidableEq

/-- Outcome of the regex search + `json.loads` step on the response
text. -/
inductive RespParse
  | noJson
  | badJson
  | parsed (d : LlmData)
deriving DecidableEq

/-- The `model_router` collaborator, modelled by the behaviours the claim
enumerates: no `chat` attribute (the code then parses the empty string,
finds no JSON and falls back), `chat` raising, or `chat` returning text
whose JSON extraction has one of the three `RespParse` outcomes. -/
inductive ModelRouter
  | noChatAttr
  | chatRaises
  | chatReturns (r : RespParse)
deriving DecidableEq

/-- Source `IdeaCore._llm_extraction` (leading underscore dropped): every failure
path ends in `basic_extraction`; the model is total, mirroring that the
source catches each of these failures rather than raising. -/
def IdeaCore.llm_extraction (raw_input : String) (model_router : ModelRouter)
    (trend_context : Option TrendContext) : IdeaCore :=
  match model_router with
  | .noChatAttr => IdeaCore.basic_extraction raw_input trend_context
  | .chatRaises => IdeaCore.basic_extraction raw_input trend_context
  | .chatReturns .noJson => IdeaCore.basic_extraction raw_input trend_context
  | .chatReturns .badJson => IdeaCore.basic_extraction raw_input trend_context
  | .chatReturns (.parsed d) =>
    match ContentMode.ofString (d.content_mode.getD "long_form"),
        TimeSensitivity.ofString (d.time_sensitivity.getD "evergreen"),
        NoveltyAxis.ofString (d.novelty_axis.getD "new_angle") with
    | some cm, some ts, some na =>
      { core_claim := d.core_claim.getD (raw_input.take 200)
        audience := d.audience.getD "Productivity-obsessed millennials/Gen Z"
        emotional_hooks := d.emotional_hooks.getD ["curiosity"]
        content_mode := cm
        time_sensitivity := ts
        novelty_axis := na
        keywords := d.keywords.getD []
        pain_points := d.pain_points.getD []
        value_propositions := d.value_propositions.getD []
        hook_pressure := none
        pacing_pressure := none
        claim_strength_required := none }
    | _, _, _ => IdeaCore.basic_extraction raw_input trend_context

/-- Source `IdeaCore.from_raw_input`. -/
def IdeaCore.from_raw_input (raw_input : String)
    (model_router : Option ModelRouter)
    (trend_context : Option TrendContext) : IdeaCore :=
  match model_router with
  | none => IdeaCore.basic_extraction raw_input trend_context
  | some r => IdeaCore.llm_extraction raw_input r trend_context

/-- The failure modes of LLM-assisted extraction: generator absent, no
`chat` interface, an exception, missing/malformed JSON, or an invalid enum
value among the parsed fields. -/
def extractionFails : Option ModelRouter → Bool
  | none => true
  | some .noChatAttr => true
  | some .chatRaises => true
  | some (.chatReturns .noJson) => true
  | some (.chatReturns .badJson) => true
  | some (.chatReturns (.parsed d)) =>
    (ContentMode.ofString (d.content_mode.getD "long_form")).isNone ||
    (TimeSensitivity.ofString (d.time_sensitivity.getD "evergreen")).isNone ||
    (NoveltyAxis.ofString (d.novelty_axis.getD "new_angle")).isNone

/-- C6: on every failure mode of the text-generation collaborator,
`from_raw_input` returns exactly the deterministic fallback
`basic_extraction` on the same raw input (the embedding is a total
function: no failure escapes to the caller). -/
theorem C6_llm_extraction_falls_back (raw : String)
    (tc : Option TrendContext) (router : Option ModelRouter)
    (h : extractionFails router = true) :
    IdeaCore.from_raw_input raw router tc =
      IdeaCore.basic_extraction raw tc := by
  match router with
  | none => rfl
  | some .noChatAttr => rfl
  | some .chatRaises => rfl
  | some (.chatReturns .noJson) => rfl
  | some (.chatReturns .badJson) => rfl
  | some (.chatReturns (.parsed d)) =>
    simp only [IdeaCore.from_raw_input, IdeaCore.llm_extraction]
    cases hcm : ContentMode.ofString (d.content_mode.getD "long_form") with
    | none => rfl
    | some cm =>
      cases hts : TimeSensitivity.ofString (d.time_sensitivity.getD "evergreen") with
      | none => rfl
      | some ts =>
        cases hna : NoveltyAxis.ofString (d.novelty_axis.getD "new_angle") with
        | none => rfl
        | some na =>
          exfalso
          have hf : extractionFails (some (.chatReturns (.parsed d))) = false := by
            simp [extractionFails, hcm, hts, hna]
          rw [h] at hf
          cases hf

/-- A generator response carrying an invalid `content_mode` variant. -/
def badEnumRouter : ModelRouter :=
  .chatReturns (.parsed
    ⟨none, none, none, some "sitcom", none, none, none, none, none⟩)

/-- Witness for C6: the invalid-enum response falls back to
`basic_extraction` on a concrete raw input. -/
theorem C6_witness :
    extractionFails (some badEnumRouter) = true ∧
    IdeaCore.from_raw_input "How to automate tasks" (some badEnumRouter) none =
      IdeaCore.basic_extraction "How to automate tasks" none :=
  ⟨by decide,
   C6_llm_extraction_falls_back "How to automate tasks" none
     (some badEnumRouter) (by decide)⟩
